import Mathlib

/-!
Verification of the creature lifecycle events of the weasel battle engine
(src/creature.rs): the CreateCreature, ConvertCreature and RemoveCreature
events, their verify/apply protocol, and the insertion-ordered collections
of the Creature entity.

The event logic is translated from src/creature.rs.  The collaborating
subsystems that live outside that file (entity registry, spatial ledger,
turn-order module, rule hooks, metrics) are modelled from the specification
of their contracts; each such definition carries a doc comment starting
with "Modelled from the spec:".  Rule callbacks are kept fully abstract by
parameterising every event operation over a `Rules` record of functions,
mirroring the `R: BattleRules` generic of the source.
-/

set_option linter.unusedVariables false

namespace Weasel

/-- A statistic of a character, identified by its own id (the shape of
`SimpleStatistic`: an id plus a value). -/
structure Statistic where
  id : Nat
  value : Nat
  deriving DecidableEq

/-- A status applied to a character, identified by its own id. -/
structure AppliedStatus where
  id : Nat
  effect : Nat
  deriving DecidableEq

/-- An ability of an actor, identified by its own id. -/
structure Ability where
  id : Nat
  power : Nat
  deriving DecidableEq

/-- Association list modelling the insertion-order-preserving `IndexMap`
used by `Creature` for statistics, statuses and abilities.  Entries are
key/value pairs kept in insertion order. -/
abbrev IndexMap (α : Type) : Type := List (Nat × α)

/-- Lookup in an `IndexMap`: the value stored at the given key, or `none`. -/
def IndexMap.get {α : Type} : IndexMap α → Nat → Option α
  | [], _ => none
  | (k, v) :: rest, i => if k = i then some v else IndexMap.get rest i

/-- Insertion in an `IndexMap`, returning the previous value at the key (if
any) together with the updated map.  An existing key keeps its place in the
order and only its value is updated; a new key is appended at the end.
This is the contract of `IndexMap::insert` as used by the source. -/
def IndexMap.insertRet {α : Type} : IndexMap α → Nat → α → Option α × IndexMap α
  | [], i, v => (none, [(i, v)])
  | (k, w) :: rest, i, v =>
    if k = i then (some w, (k, v) :: rest)
    else
      let r := IndexMap.insertRet rest i v
      (r.1, (k, w) :: r.2)

/-- Insertion in an `IndexMap`, discarding the previous value. -/
def IndexMap.insert {α : Type} (m : IndexMap α) (i : Nat) (v : α) : IndexMap α :=
  (IndexMap.insertRet m i v).2

/-- The values of an `IndexMap` in iteration order (the order `values()`
yields them). -/
def IndexMap.values {α : Type} (m : IndexMap α) : List α :=
  m.map Prod.snd

/-- Typed entity identifier: creatures and inanimate objects carry
different kind tags (`EntityId` in the source). -/
inductive EntityId where
  | Creature (id : Nat)
  | Object (id : Nat)
  deriving DecidableEq

/-- The main acting entity of a battle (`Creature` in src/creature.rs):
identity, owning team, position and the three insertion-ordered
collections. -/
structure Creature where
  id : EntityId
  team_id : Nat
  position : Nat
  statistics : IndexMap Statistic
  statuses : IndexMap AppliedStatus
  abilities : IndexMap Ability
  deriving DecidableEq

/-- Lookup of a statistic by id (`Creature::statistic`). -/
def Creature.statistic (c : Creature) (i : Nat) : Option Statistic :=
  IndexMap.get c.statistics i

/-- Adds a statistic keyed by its own id, returning the previously stored
statistic with that id, if any (`Creature::add_statistic`). -/
def Creature.add_statistic (c : Creature) (s : Statistic) : Option Statistic × Creature :=
  let r := IndexMap.insertRet c.statistics s.id s
  (r.1, { c with statistics := r.2 })

/-- The statistics in iteration order (`Creature::statistics`). -/
def Creature.statisticsValues (c : Creature) : List Statistic :=
  IndexMap.values c.statistics

/-- Lookup of a status by id (`Creature::status`). -/
def Creature.status (c : Creature) (i : Nat) : Option AppliedStatus :=
  IndexMap.get c.statuses i

/-- Adds a status keyed by its own id, returning the previously stored
status with that id, if any (`Creature::add_status`). -/
def Creature.add_status (c : Creature) (s : AppliedStatus) : Option AppliedStatus × Creature :=
  let r := IndexMap.insertRet c.statuses s.id s
  (r.1, { c with statuses := r.2 })

/-- The statuses in iteration order (`Creature::statuses`). -/
def Creature.statusesValues (c : Creature) : List AppliedStatus :=
  IndexMap.values c.statuses

/-- Lookup of an ability by id (`Creature::ability`). -/
def Creature.ability (c : Creature) (i : Nat) : Option Ability :=
  IndexMap.get c.abilities i

/-- Adds an ability keyed by its own id, returning the previously stored
ability with that id, if any (`Creature::add_ability`). -/
def Creature.add_ability (c : Creature) (a : Ability) : Option Ability × Creature :=
  let r := IndexMap.insertRet c.abilities a.id a
  (r.1, { c with abilities := r.2 })

/-- The abilities in iteration order (`Creature::abilities`). -/
def Creature.abilitiesValues (c : Creature) : List Ability :=
  IndexMap.values c.abilities

/-- Modelled from the spec: a team owns a set of member creature ids and
delegates admission decisions to the team rules. -/
structure Team where
  id : Nat
  members : List Nat
  deriving DecidableEq

/-- Finds the team with the given id. -/
def findTeam : List Team → Nat → Option Team
  | [], _ => none
  | t :: ts, i => if t.id = i then some t else findTeam ts i

/-- Finds the creature with the given creature id. -/
def findCreature : List Creature → Nat → Option Creature
  | [], _ => none
  | c :: cs, i => if c.id = EntityId.Creature i then some c else findCreature cs i

/-- Removes every occurrence of an id from a member list. -/
def eraseId : List Nat → Nat → List Nat
  | [], _ => []
  | m :: ms, i => if m = i then eraseId ms i else m :: eraseId ms i

/-- Modelled from the spec: the entity registry, the single writer of
entity existence, holding the canonical collections of creatures and
teams. -/
structure Entities where
  creatures : List Creature
  teams : List Team
  deriving DecidableEq

/-- Registry lookup of a creature by id; absence is `None`, not an error. -/
def Entities.creature (es : Entities) (i : Nat) : Option Creature :=
  findCreature es.creatures i

/-- Registry lookup of a team by id; absence is `None`, not an error. -/
def Entities.team (es : Entities) (i : Nat) : Option Team :=
  findTeam es.teams i

/-- Modelled from the spec: errors of the registry operations. -/
inductive RegistryError where
  | duplicatedEntity
  | entityNotFound
  | teamNotFound
  | wrongEntityKind
  deriving DecidableEq

/-- Adds a member id to the team with the given id. -/
def addMember (ts : List Team) (tid : Nat) (cid : Nat) : List Team :=
  ts.map fun t => if t.id = tid then { t with members := t.members ++ [cid] } else t

/-- Removes a member id from the team with the given id. -/
def removeMember (ts : List Team) (tid : Nat) (cid : Nat) : List Team :=
  ts.map fun t => if t.id = tid then { t with members := eraseId t.members cid } else t

/-- Removes the creature with the given id from the creature list. -/
def removeCreatureList : List Creature → Nat → List Creature
  | [], _ => []
  | c :: cs, i =>
    if c.id = EntityId.Creature i then removeCreatureList cs i
    else c :: removeCreatureList cs i

/-- Modelled from the spec: registry `add` — fails with a duplication error
if an entity with that id already exists, registers the new creature with
its team and appends it to the registry otherwise. -/
def Entities.add_creature (es : Entities) (c : Creature) : Except RegistryError Entities :=
  match c.id with
  | EntityId.Creature cid =>
    match Entities.creature es cid with
    | some _ => .error .duplicatedEntity
    | none =>
      match findTeam es.teams c.team_id with
      | none => .error .teamNotFound
      | some _ =>
        .ok { creatures := es.creatures ++ [c], teams := addMember es.teams c.team_id cid }
  | EntityId.Object _ => .error .wrongEntityKind

/-- Modelled from the spec: registry `convert` — fails if the creature or
the destination team is absent; otherwise atomically updates the team
membership bookkeeping on both the old and new team and the team field of
the creature itself. -/
def Entities.convert_creature (es : Entities) (cid : Nat) (tid : Nat) :
    Except RegistryError Entities :=
  match Entities.creature es cid with
  | none => .error .entityNotFound
  | some c =>
    match findTeam es.teams tid with
    | none => .error .teamNotFound
    | some _ =>
      .ok { creatures := es.creatures.map fun d =>
              if d.id = EntityId.Creature cid then { d with team_id := tid } else d,
            teams := addMember (removeMember es.teams c.team_id cid) tid cid }

/-- Modelled from the spec: registry `remove` — fails if the entity is
absent; otherwise detaches it from its team and returns the removed value
to the caller for post-processing. -/
def Entities.remove_creature (es : Entities) (cid : Nat) :
    Except RegistryError (Creature × Entities) :=
  match Entities.creature es cid with
  | none => .error .entityNotFound
  | some c =>
    .ok (c, { creatures := removeCreatureList es.creatures cid,
              teams := removeMember es.teams c.team_id cid })

/-- A spatial claim: a new entity taking a free position (spawn) or an
existing entity changing or releasing its position (movement). -/
inductive PositionClaim where
  | Spawn (id : EntityId)
  | Movement (id : EntityId)
  deriving DecidableEq

/-- The entity making a claim. -/
def PositionClaim.entity : PositionClaim → EntityId
  | .Spawn i => i
  | .Movement i => i

/-- Modelled from the spec: the spatial claim ledger tracks which position
each entity occupies. -/
abbrev Space : Type := List (EntityId × Nat)

/-- Drops any claim held by the given entity. -/
def spaceRelease : Space → EntityId → Space
  | [], _ => []
  | (e, p) :: rest, i =>
    if e = i then spaceRelease rest i else (e, p) :: spaceRelease rest i

/-- Modelled from the spec: `move_entity` commits a claim — with a target
position the claiming entity now occupies it, with `none` the claim of the
entity is released and its position becomes free. -/
def Space.move_entity (sp : Space) (claim : PositionClaim) (pos : Option Nat) : Space :=
  match pos with
  | some p => spaceRelease sp claim.entity ++ [(claim.entity, p)]
  | none => spaceRelease sp claim.entity

/-- Turn state of the round module: `Ready`, or `Started` with the set of
acting entity ids. -/
inductive TurnState where
  | Ready
  | Started (actors : List EntityId)
  deriving DecidableEq

/-- Whether a list of entity ids contains the given id. -/
def containsEntity : List EntityId → EntityId → Bool
  | [], _ => false
  | e :: es, i => if e = i then true else containsEntity es i

/-- Modelled from the spec: the turn-order bookkeeping — the current turn
state plus the roster of actors known to the round module. -/
structure Rounds where
  state : TurnState
  order : List EntityId
  deriving DecidableEq

/-- Removes an entity id from an entity id list. -/
def eraseEntity : List EntityId → EntityId → List EntityId
  | [], _ => []
  | e :: es, i => if e = i then eraseEntity es i else e :: eraseEntity es i

/-- Modelled from the spec: `on_actor_added` notifies the round module of
a new actor. -/
def Rounds.on_actor_added (r : Rounds) (e : EntityId) : Rounds :=
  { r with order := r.order ++ [e] }

/-- Modelled from the spec: `on_actor_removed` notifies the round module
that an actor was removed. -/
def Rounds.on_actor_removed (r : Rounds) (e : EntityId) : Rounds :=
  { r with order := eraseEntity r.order e }

/-- Modelled from the spec: `set_state` overwrites the turn state. -/
def Rounds.set_state (r : Rounds) (s : TurnState) : Rounds :=
  { r with state := s }

/-- Whether the given entity is an acting participant of an in-progress
turn (the `TurnState::Started` membership test of `RemoveCreature::apply`). -/
def isActingParticipant (r : Rounds) (eid : EntityId) : Bool :=
  match r.state with
  | TurnState.Started actors => containsEntity actors eid
  | TurnState.Ready => false

/-- The battle state protected by the event protocol: registry, spatial
ledger and turn-order bookkeeping. -/
structure BattleState where
  entities : Entities
  space : Space
  rounds : Rounds
  deriving DecidableEq

/-- The battle: its state plus the creature-creation counter metric. -/
structure Battle where
  state : BattleState
  creaturesCreatedMetric : Nat
  deriving DecidableEq

/-- The admission reason given to the team acceptance rule. -/
inductive EntityAddition where
  | CreatureSpawn
  | CreatureConversion (creature : Creature)

/-- Opaque follow-up events enqueued by rule hooks. -/
abbrev QueuedEvent : Type := Nat

/-- Opaque rejection cause reported by a rule callback. -/
abbrev RuleCause : Type := Nat

/-- Modelled from the spec: the fixed rule configuration of a battle — the
closed set of abstract extension points the event code calls (team
admission predicate, generators, spatial check, lifecycle hooks, objective
evaluation).  Hooks that may enqueue events are modelled as returning the
list of events they enqueue. -/
structure Rules where
  allow_new_entity : BattleState → Team → EntityAddition → Except RuleCause Unit
  generate_statistics : Option Nat → List Statistic
  generate_abilities : Option Nat → List Ability
  check_move : Space → PositionClaim → Nat → Except RuleCause Unit
  on_character_added : BattleState → Creature → List QueuedEvent
  on_character_transmuted : BattleState → Creature → List QueuedEvent
  check_objectives : BattleState → List QueuedEvent

/-- The error taxonomy surfaced by the verify functions of the three
creature events. -/
inductive WeaselError where
  | TeamNotFound (id : Nat)
  | NewCreatureUnaccepted (team : Nat) (cause : RuleCause)
  | DuplicatedCreature (id : Nat)
  | PositionError (entity : Option EntityId) (position : Nat) (cause : RuleCause)
  | CreatureNotFound (id : Nat)
  | InvalidCreatureConversion (team : Nat) (creature : Nat)
  | ConvertedCreatureUnaccepted (team : Nat) (creature : Nat) (cause : RuleCause)
  deriving DecidableEq

/-- One observable step of an apply function: a call into a collaborating
subsystem or rule hook, recorded in the order the code performs it. -/
inductive Step where
  | GenStatistics (seed : Option Nat)
  | GenAbilities (seed : Option Nat)
  | ConstructCreature (c : Creature)
  | SpaceMove (claim : PositionClaim) (position : Option Nat)
  | RoundsActorAdded (id : EntityId)
  | CharacterAddedHook (id : EntityId)
  | RegistryAddCreature (id : EntityId)
  | MetricCreaturesCreated
  | RegistryConvertCreature (creature : Nat) (team : Nat)
  | RoundsOnEnd (id : EntityId)
  | CheckObjectivesTurnEnd
  | SetTurnState (s : TurnState)
  | RegistryRemoveCreature (id : EntityId)
  | CharacterTransmutedHook (id : EntityId)
  | RoundsActorRemoved (id : EntityId)
  deriving DecidableEq

/-- Modelled from the spec: `collect_from_iter` collects the items yielded
by a generator into an insertion-ordered map keyed by each item id. -/
def collect_from_iter {α : Type} (idOf : α → Nat) (items : List α) : IndexMap α :=
  items.foldl (fun m s => IndexMap.insert m (idOf s) s) []

/-- The `CreateCreature` event: id, destination team, spawn position and
the optional generation seeds. -/
structure CreateCreature where
  id : Nat
  team_id : Nat
  position : Nat
  statistics_seed : Option Nat
  abilities_seed : Option Nat
  deriving DecidableEq

/-- `CreateCreature::verify`, translated from src/creature.rs lines
303-328: destination team exists, team accepts the spawn, id is not
duplicated, spatial ledger accepts the spawn claim. -/
def CreateCreature.verify (rules : Rules) (e : CreateCreature) (b : Battle) :
    Except WeaselError Unit :=
  match Entities.team b.state.entities e.team_id with
  | none => .error (.TeamNotFound e.team_id)
  | some team =>
    match rules.allow_new_entity b.state team .CreatureSpawn with
    | .error cause => .error (.NewCreatureUnaccepted e.team_id cause)
    | .ok _ =>
      match Entities.creature b.state.entities e.id with
      | some _ => .error (.DuplicatedCreature e.id)
      | none =>
        match rules.check_move b.state.space (.Spawn (EntityId.Creature e.id)) e.position with
        | .error cause => .error (.PositionError none e.position cause)
        | .ok _ => .ok ()

/-- The creature constructed by `CreateCreature::apply`: generated
statistics and abilities, empty status collection. -/
def newCreature (rules : Rules) (e : CreateCreature) : Creature :=
  { id := EntityId.Creature e.id
    team_id := e.team_id
    position := e.position
    statistics := collect_from_iter Statistic.id (rules.generate_statistics e.statistics_seed)
    statuses := []
    abilities := collect_from_iter Ability.id (rules.generate_abilities e.abilities_seed) }

/-- `CreateCreature::apply`, translated from src/creature.rs lines
330-386.  Returns the new battle, the event queue extended by the events
enqueued by hooks, and the trace of collaborator calls in program order.
The registry-error branch is unreachable once verify has succeeded (the
source panics there). -/
def CreateCreature.apply (rules : Rules) (e : CreateCreature) (b : Battle)
    (queue : List QueuedEvent) : Battle × List QueuedEvent × List Step :=
  let creature := newCreature rules e
  let st1 : BattleState :=
    { b.state with
        space := Space.move_entity b.state.space
          (.Spawn (EntityId.Creature e.id)) (some e.position) }
  let st2 : BattleState := { st1 with rounds := st1.rounds.on_actor_added creature.id }
  let hookEvents := rules.on_character_added st2 creature
  let st3 : BattleState :=
    { st2 with entities :=
        match Entities.add_creature st2.entities creature with
        | .ok es => es
        | .error _ => st2.entities }
  ({ state := st3, creaturesCreatedMetric := b.creaturesCreatedMetric + 1 },
   queue ++ hookEvents,
   [Step.GenStatistics e.statistics_seed, Step.GenAbilities e.abilities_seed,
    Step.ConstructCreature creature,
    Step.SpaceMove (.Spawn (EntityId.Creature e.id)) (some e.position),
    Step.RoundsActorAdded creature.id, Step.CharacterAddedHook creature.id,
    Step.RegistryAddCreature creature.id, Step.MetricCreaturesCreated])

/-- The `ConvertCreature` event: creature to convert and destination team. -/
structure ConvertCreature where
  creature_id : Nat
  team_id : Nat
  deriving DecidableEq

/-- `ConvertCreature::verify`, translated from src/creature.rs lines
561-593: creature exists, destination team exists, destination differs
from the current team, team accepts the conversion of this creature. -/
def ConvertCreature.verify (rules : Rules) (e : ConvertCreature) (b : Battle) :
    Except WeaselError Unit :=
  match Entities.creature b.state.entities e.creature_id with
  | none => .error (.CreatureNotFound e.creature_id)
  | some creature =>
    match Entities.team b.state.entities e.team_id with
    | none => .error (.TeamNotFound e.team_id)
    | some team =>
      if team.id = creature.team_id then
        .error (.InvalidCreatureConversion e.team_id e.creature_id)
      else
        match rules.allow_new_entity b.state team (.CreatureConversion creature) with
        | .error cause =>
          .error (.ConvertedCreatureUnaccepted e.team_id e.creature_id cause)
        | .ok _ => .ok ()

/-- `ConvertCreature::apply`, translated from src/creature.rs lines
595-601: a single registry membership transfer; the event queue is not
touched.  The registry-error branch is unreachable once verify has
succeeded (the source panics there). -/
def ConvertCreature.apply (rules : Rules) (e : ConvertCreature) (b : Battle)
    (queue : List QueuedEvent) : Battle × List QueuedEvent × List Step :=
  let es :=
    match Entities.convert_creature b.state.entities e.creature_id e.team_id with
    | .ok es => es
    | .error _ => b.state.entities
  ({ b with state := { b.state with entities := es } },
   queue,
   [Step.RegistryConvertCreature e.creature_id e.team_id])

/-- The `RemoveCreature` event: the id of the creature to remove. -/
structure RemoveCreature where
  id : Nat
  deriving DecidableEq

/-- `RemoveCreature::verify`, translated from src/creature.rs lines
715-721: the creature exists; nothing else is checked and no rule is
consulted. -/
def RemoveCreature.verify (rules : Rules) (e : RemoveCreature) (b : Battle) :
    Except WeaselError Unit :=
  match Entities.creature b.state.entities e.id with
  | none => .error (.CreatureNotFound e.id)
  | some _ => .ok ()

/-- `RemoveCreature::apply`, translated from src/creature.rs lines
723-779.  If the creature is an acting participant of an in-progress turn,
first the round-rule on-end hook runs, the team objectives are re-evaluated
at the turn-end checkpoint (with the state as it is at that moment,
enqueuing the resulting events) and the turn state is set to Ready; then
the creature is removed from the registry, the transmuted hook runs tagged
as a removal (seeing the post-removal state), the round module is notified
of the removal, and the spatial claim of the creature is released.  The
not-found branches are unreachable once verify has succeeded (the source
panics there). -/
def RemoveCreature.apply (rules : Rules) (e : RemoveCreature) (b : Battle)
    (queue : List QueuedEvent) : Battle × List QueuedEvent × List Step :=
  match Entities.creature b.state.entities e.id with
  | none => (b, queue, [])
  | some creature =>
    let acting := isActingParticipant b.state.rounds creature.id
    let queue1 := if acting then queue ++ rules.check_objectives b.state else queue
    let rounds1 :=
      if acting then b.state.rounds.set_state TurnState.Ready else b.state.rounds
    let trace1 : List Step :=
      if acting then
        [Step.RoundsOnEnd creature.id, Step.CheckObjectivesTurnEnd,
         Step.SetTurnState TurnState.Ready]
      else []
    let st1 : BattleState := { b.state with rounds := rounds1 }
    let removedPair :=
      match Entities.remove_creature st1.entities e.id with
      | .ok r => r
      | .error _ => (creature, st1.entities)
    let removed := removedPair.1
    let st2 : BattleState := { st1 with entities := removedPair.2 }
    let hookEvents := rules.on_character_transmuted st2 removed
    let queue2 := queue1 ++ hookEvents
    let st3 : BattleState := { st2 with rounds := st2.rounds.on_actor_removed removed.id }
    let st4 : BattleState :=
      { st3 with space := Space.move_entity st3.space (.Movement removed.id) none }
    ({ b with state := st4 },
     queue2,
     trace1 ++
       [Step.RegistryRemoveCreature creature.id, Step.CharacterTransmutedHook removed.id,
        Step.RoundsActorRemoved removed.id, Step.SpaceMove (.Movement removed.id) none])

/-- The three creature lifecycle events as one submission type. -/
inductive CreatureEvent where
  | createC (e : CreateCreature)
  | convertC (e : ConvertCreature)
  | removeC (e : RemoveCreature)
  deriving DecidableEq

/-- Dispatch of verify over the three events. -/
def CreatureEvent.verify (rules : Rules) : CreatureEvent → Battle → Except WeaselError Unit
  | .createC e, b => CreateCreature.verify rules e b
  | .convertC e, b => ConvertCreature.verify rules e b
  | .removeC e, b => RemoveCreature.verify rules e b

/-- Dispatch of apply over the three events. -/
def CreatureEvent.applyEvent (rules : Rules) :
    CreatureEvent → Battle → List QueuedEvent → Battle × List QueuedEvent × List Step
  | .createC e, b, q => CreateCreature.apply rules e b q
  | .convertC e, b, q => ConvertCreature.apply rules e b q
  | .removeC e, b, q => RemoveCreature.apply rules e b q

deriving instance DecidableEq for Except

/-- Outcome of submitting one event: the battle afterwards, the follow-up
events enqueued during apply, and the verify result reported to the
caller. -/
structure SubmitOutcome where
  battle : Battle
  queued : List QueuedEvent
  result : Except WeaselError Unit
  deriving DecidableEq

/-- Modelled from the spec: the submission driver — verify against current
state, and only on success run apply; a verify failure propagates to the
submitter with no mutation. -/
def submit (rules : Rules) (ev : CreatureEvent) (b : Battle) : SubmitOutcome :=
  match CreatureEvent.verify rules ev b with
  | .error err => { battle := b, queued := [], result := .error err }
  | .ok _ =>
    let r := CreatureEvent.applyEvent rules ev b []
    { battle := r.1, queued := r.2.1, result := .ok () }

/-- A sequence of `add_statistic` calls, performed left to right. -/
def addStatisticsSeq (c : Creature) (items : List Statistic) : Creature :=
  items.foldl (fun d s => (d.add_statistic s).2) c

/-- A sequence of `add_status` calls, performed left to right. -/
def addStatusesSeq (c : Creature) (items : List AppliedStatus) : Creature :=
  items.foldl (fun d s => (d.add_status s).2) c

/-- A sequence of `add_ability` calls, performed left to right. -/
def addAbilitiesSeq (c : Creature) (items : List Ability) : Creature :=
  items.foldl (fun d a => (d.add_ability a).2) c

/-- A concrete rule configuration: every admission and spatial check
passes, generators produce fixed items, each hook enqueues one marker
event. -/
def rules0 : Rules :=
  { allow_new_entity := fun _ _ _ => .ok ()
    generate_statistics := fun _ => [⟨1, 10⟩, ⟨2, 20⟩]
    generate_abilities := fun _ => [⟨5, 7⟩]
    check_move := fun _ _ _ => .ok ()
    on_character_added := fun _ _ => [101]
    on_character_transmuted := fun _ _ => [202]
    check_objectives := fun _ => [303] }

/-- A concrete creature with id 0 on team 0 at position 5. -/
def cr0 : Creature := ⟨EntityId.Creature 0, 0, 5, [], [], []⟩

/-- A concrete battle: creature 0 on team 0 at position 5, turn ready. -/
def battle0 : Battle :=
  ⟨⟨⟨[cr0], [⟨0, [0]⟩]⟩, [(EntityId.Creature 0, 5)],
    ⟨TurnState.Ready, [EntityId.Creature 0]⟩⟩, 3⟩

/-- A concrete battle with one empty team and no creatures. -/
def battleEmpty : Battle := ⟨⟨⟨[], [⟨0, []⟩]⟩, [], ⟨TurnState.Ready, []⟩⟩, 0⟩

/-- A concrete battle where creature 0 is the acting participant of an
in-progress turn. -/
def battleMid : Battle :=
  ⟨⟨⟨[cr0], [⟨0, [0]⟩]⟩, [(EntityId.Creature 0, 5)],
    ⟨TurnState.Started [EntityId.Creature 0], [EntityId.Creature 0]⟩⟩, 3⟩

/-- A concrete battle with creature 0 on team 0 and a second, empty team 1. -/
def battle2 : Battle :=
  ⟨⟨⟨[cr0], [⟨0, [0]⟩, ⟨1, []⟩]⟩, [(EntityId.Creature 0, 5)],
    ⟨TurnState.Ready, [EntityId.Creature 0]⟩⟩, 3⟩

/-- A concrete creation event: fresh id 1, team 0, position 9, seeded. -/
def e0 : CreateCreature := ⟨1, 0, 9, some 4, some 6⟩

/-- A concrete creation event with the already-taken id 0 aimed at the
nonexistent team 1. -/
def eDup : CreateCreature := ⟨0, 1, 9, none, none⟩

/-- The returned previous value of an insertion is the lookup before it. -/
theorem IndexMap.get_insertRet_fst {α : Type} (m : IndexMap α) (k : Nat) (v : α) :
    (IndexMap.insertRet m k v).1 = IndexMap.get m k := by
  induction m with
  | nil => rfl
  | cons p rest ih =>
    obtain ⟨a, w⟩ := p
    by_cases hak : a = k
    · simp [IndexMap.insertRet, IndexMap.get, hak]
    · simp [IndexMap.insertRet, IndexMap.get, hak, ih]

/-- Lookup at the inserted key returns the inserted value. -/
theorem IndexMap.get_insert_self {α : Type} (m : IndexMap α) (k : Nat) (v : α) :
    IndexMap.get (IndexMap.insert m k v) k = some v := by
  induction m with
  | nil => simp [IndexMap.insert, IndexMap.insertRet, IndexMap.get]
  | cons p rest ih =>
    obtain ⟨a, w⟩ := p
    by_cases hak : a = k
    · simp [IndexMap.insert, IndexMap.insertRet, IndexMap.get, hak]
    · simpa [IndexMap.insert, IndexMap.insertRet, IndexMap.get, hak] using ih

/-- Lookup at a different key is unchanged by an insertion. -/
theorem IndexMap.get_insert_ne {α : Type} (m : IndexMap α) (k j : Nat) (v : α)
    (h : j ≠ k) : IndexMap.get (IndexMap.insert m k v) j = IndexMap.get m j := by
  have hkj : ¬ k = j := fun hh => h hh.symm
  induction m with
  | nil => simp [IndexMap.insert, IndexMap.insertRet, IndexMap.get, hkj]
  | cons p rest ih =>
    obtain ⟨a, w⟩ := p
    by_cases hak : a = k
    · subst hak
      simp [IndexMap.insert, IndexMap.insertRet, IndexMap.get, hkj]
    · by_cases haj : a = j
      · simp [IndexMap.insert, IndexMap.insertRet, IndexMap.get, hak, haj, hkj, h]
      · simpa [IndexMap.insert, IndexMap.insertRet, IndexMap.get, hak, haj] using ih

/-- Inserting a fresh key appends the entry at the end of the order. -/
theorem IndexMap.insert_fresh {α : Type} (m : IndexMap α) (k : Nat) (v : α)
    (h : IndexMap.get m k = none) : IndexMap.insert m k v = m ++ [(k, v)] := by
  induction m with
  | nil => rfl
  | cons p rest ih =>
    obtain ⟨a, w⟩ := p
    by_cases hak : a = k
    · simp [IndexMap.get, hak] at h
    · have h2 : IndexMap.get rest k = none := by simpa [IndexMap.get, hak] using h
      simpa [IndexMap.insert, IndexMap.insertRet, hak] using ih h2

/-- Lookup skips a prefix in which the key is absent. -/
theorem IndexMap.get_append_of_none {α : Type} (m m2 : IndexMap α) (j : Nat)
    (h : IndexMap.get m j = none) :
    IndexMap.get (m ++ m2) j = IndexMap.get m2 j := by
  induction m with
  | nil => rfl
  | cons p rest ih =>
    obtain ⟨a, w⟩ := p
    by_cases haj : a = j
    · simp [IndexMap.get, haj] at h
    · have h2 : IndexMap.get rest j = none := by simpa [IndexMap.get, haj] using h
      simpa [IndexMap.get, haj] using ih h2

/-- Lookup yields `none` exactly when no entry carries the key. -/
theorem IndexMap.get_eq_none_iff {α : Type} (m : IndexMap α) (j : Nat) :
    IndexMap.get m j = none ↔ ∀ p ∈ m, p.1 ≠ j := by
  induction m with
  | nil => simp [IndexMap.get]
  | cons p rest ih =>
    obtain ⟨a, w⟩ := p
    by_cases haj : a = j
    · simp [IndexMap.get, haj]
    · simp [IndexMap.get, haj, ih]

/-- Folding fresh, pairwise-distinct insertions appends the entries in
insertion order. -/
theorem IndexMap.foldl_insert_fresh {α : Type} (idOf : α → Nat) (items : List α) :
    ∀ m : IndexMap α, (∀ s ∈ items, IndexMap.get m (idOf s) = none) →
      items.Pairwise (fun a b => idOf a ≠ idOf b) →
      items.foldl (fun d s => IndexMap.insert d (idOf s) s) m =
        m ++ items.map fun s => (idOf s, s) := by
  induction items with
  | nil => intro m _ _; simp
  | cons s rest ih =>
    intro m hfresh hdist
    have h1 : IndexMap.get m (idOf s) = none := hfresh s (by simp)
    have hd := List.pairwise_cons.mp hdist
    have hfresh2 : ∀ t ∈ rest, IndexMap.get (m ++ [(idOf s, s)]) (idOf t) = none := by
      intro t ht
      have hne : ¬ idOf s = idOf t := hd.1 t ht
      have h2 : IndexMap.get m (idOf t) = none := hfresh t (by simp [ht])
      rw [IndexMap.get_append_of_none _ _ _ h2]
      simp [IndexMap.get, hne]
    calc (s :: rest).foldl (fun d u => IndexMap.insert d (idOf u) u) m
        = rest.foldl (fun d u => IndexMap.insert d (idOf u) u) (m ++ [(idOf s, s)]) := by
          rw [List.foldl_cons, IndexMap.insert_fresh _ _ _ h1]
      _ = m ++ (s :: rest).map fun u => (idOf u, u) := by
          rw [ih _ hfresh2 hd.2]; simp

/-- Values of a concatenation. -/
theorem IndexMap.values_append {α : Type} (m m2 : IndexMap α) :
    IndexMap.values (m ++ m2) = IndexMap.values m ++ IndexMap.values m2 := by
  simp [IndexMap.values]

/-- Values of entries built from items are the items themselves. -/
theorem IndexMap.values_map_pair {α : Type} (idOf : α → Nat) (items : List α) :
    IndexMap.values (items.map fun s => (idOf s, s)) = items := by
  induction items with
  | nil => rfl
  | cons s rest ih => simpa [IndexMap.values] using ih

/-- A found team carries the id it was looked up by. -/
theorem findTeam_some_id (ts : List Team) (i : Nat) (t : Team)
    (h : findTeam ts i = some t) : t.id = i := by
  induction ts with
  | nil => cases h
  | cons u us ih =>
    by_cases hu : u.id = i
    · simp only [findTeam, if_pos hu] at h
      cases h
      exact hu
    · simp only [findTeam, if_neg hu] at h
      exact ih h

/-- After removal, lookup of the removed creature fails. -/
theorem findCreature_removeCreatureList (cs : List Creature) (i : Nat) :
    findCreature (removeCreatureList cs i) i = none := by
  induction cs with
  | nil => rfl
  | cons c rest ih =>
    by_cases hc : c.id = EntityId.Creature i
    · simpa [removeCreatureList, hc] using ih
    · simpa [removeCreatureList, findCreature, hc] using ih

/-- The membership transfer rewrites exactly the team field of the
converted creature. -/
theorem findCreature_map_convert (cs : List Creature) (i : Nat) (tid : Nat) :
    findCreature (cs.map fun d =>
        if d.id = EntityId.Creature i then { d with team_id := tid } else d) i
      = (findCreature cs i).map fun c => { c with team_id := tid } := by
  induction cs with
  | nil => rfl
  | cons c rest ih =>
    by_cases hc : c.id = EntityId.Creature i
    · simp [findCreature, hc]
    · simp [findCreature, hc, ih]

/-- The statistics collection after a sequence of additions is the fold of
the insertions. -/
theorem addStatisticsSeq_statistics (items : List Statistic) :
    ∀ c : Creature, (addStatisticsSeq c items).statistics =
      items.foldl (fun m s => IndexMap.insert m s.id s) c.statistics := by
  induction items with
  | nil => intro c; rfl
  | cons s rest ih =>
    intro c
    show (addStatisticsSeq ((c.add_statistic s).2) rest).statistics = _
    rw [ih]
    rfl

/-- The status collection after a sequence of additions is the fold of the
insertions. -/
theorem addStatusesSeq_statuses (items : List AppliedStatus) :
    ∀ c : Creature, (addStatusesSeq c items).statuses =
      items.foldl (fun m s => IndexMap.insert m s.id s) c.statuses := by
  induction items with
  | nil => intro c; rfl
  | cons s rest ih =>
    intro c
    show (addStatusesSeq ((c.add_status s).2) rest).statuses = _
    rw [ih]
    rfl

/-- The ability collection after a sequence of additions is the fold of
the insertions. -/
theorem addAbilitiesSeq_abilities (items : List Ability) :
    ∀ c : Creature, (addAbilitiesSeq c items).abilities =
      items.foldl (fun m a => IndexMap.insert m a.id a) c.abilities := by
  induction items with
  | nil => intro c; rfl
  | cons a rest ih =>
    intro c
    show (addAbilitiesSeq ((c.add_ability a).2) rest).abilities = _
    rw [ih]
    rfl

/-- Registry addition succeeds on a fresh id and an existing team, and
appends the creature while registering it with its team. -/
theorem Entities.add_creature_ok (es : Entities) (c : Creature) (cid : Nat) (t : Team)
    (hid : c.id = EntityId.Creature cid)
    (hdup : Entities.creature es cid = none)
    (ht : findTeam es.teams c.team_id = some t) :
    Entities.add_creature es c =
      .ok { creatures := es.creatures ++ [c],
            teams := addMember es.teams c.team_id cid } := by
  simp [Entities.add_creature, hid, hdup, ht]

/-- Registry conversion succeeds when the creature and the destination
team exist. -/
theorem Entities.convert_creature_ok (es : Entities) (cid : Nat) (tid : Nat)
    (c : Creature) (t : Team)
    (hc : Entities.creature es cid = some c) (ht : findTeam es.teams tid = some t) :
    Entities.convert_creature es cid tid =
      .ok { creatures := es.creatures.map fun d =>
              if d.id = EntityId.Creature cid then { d with team_id := tid } else d,
            teams := addMember (removeMember es.teams c.team_id cid) tid cid } := by
  simp [Entities.convert_creature, hc, ht]

/-- Registry removal succeeds when the creature exists, returning it and
detaching it from its team. -/
theorem Entities.remove_creature_ok (es : Entities) (cid : Nat) (c : Creature)
    (hc : Entities.creature es cid = some c) :
    Entities.remove_creature es cid =
      .ok (c, { creatures := removeCreatureList es.creatures cid,
                teams := removeMember es.teams c.team_id cid }) := by
  simp [Entities.remove_creature, hc]

/-- Success characterization of `CreateCreature::verify`. -/
theorem create_verify_ok_iff (rules : Rules) (e : CreateCreature) (b : Battle) :
    CreateCreature.verify rules e b = .ok () ↔
      ((∃ t, Entities.team b.state.entities e.team_id = some t ∧
          rules.allow_new_entity b.state t .CreatureSpawn = .ok ()) ∧
        Entities.creature b.state.entities e.id = none ∧
        rules.check_move b.state.space (.Spawn (EntityId.Creature e.id)) e.position
          = .ok ()) := by
  unfold CreateCreature.verify
  cases h1 : Entities.team b.state.entities e.team_id with
  | none => simp [h1]
  | some t =>
    cases h2 : rules.allow_new_entity b.state t EntityAddition.CreatureSpawn with
    | error c => simp [h1, h2]
    | ok u =>
      cases u
      cases h3 : Entities.creature b.state.entities e.id with
      | some c => simp [h1, h2, h3]
      | none =>
        cases h4 : rules.check_move b.state.space
            (.Spawn (EntityId.Creature e.id)) e.position with
        | error c => simp [h1, h2, h3, h4]
        | ok u2 => cases u2; simp [h1, h2, h3, h4]

/-- A missing destination team is the first creation failure. -/
theorem create_verify_team_none (rules : Rules) (e : CreateCreature) (b : Battle)
    (h : Entities.team b.state.entities e.team_id = none) :
    CreateCreature.verify rules e b = .error (.TeamNotFound e.team_id) := by
  simp [CreateCreature.verify, h]

/-- A rejecting admission rule is the second creation failure. -/
theorem create_verify_unaccepted (rules : Rules) (e : CreateCreature) (b : Battle)
    (t : Team) (cause : RuleCause)
    (h1 : Entities.team b.state.entities e.team_id = some t)
    (h2 : rules.allow_new_entity b.state t .CreatureSpawn = .error cause) :
    CreateCreature.verify rules e b
      = .error (.NewCreatureUnaccepted e.team_id cause) := by
  simp [CreateCreature.verify, h1, h2]

/-- A duplicated id is the third creation failure. -/
theorem create_verify_dup (rules : Rules) (e : CreateCreature) (b : Battle)
    (t : Team) (c : Creature)
    (h1 : Entities.team b.state.entities e.team_id = some t)
    (h2 : rules.allow_new_entity b.state t .CreatureSpawn = .ok ())
    (h3 : Entities.creature b.state.entities e.id = some c) :
    CreateCreature.verify rules e b = .error (.DuplicatedCreature e.id) := by
  simp [CreateCreature.verify, h1, h2, h3]

/-- A rejected spawn claim is the fourth creation failure. -/
theorem create_verify_pos_err (rules : Rules) (e : CreateCreature) (b : Battle)
    (t : Team) (cause : RuleCause)
    (h1 : Entities.team b.state.entities e.team_id = some t)
    (h2 : rules.allow_new_entity b.state t .CreatureSpawn = .ok ())
    (h3 : Entities.creature b.state.entities e.id = none)
    (h4 : rules.check_move b.state.space (.Spawn (EntityId.Creature e.id)) e.position
        = .error cause) :
    CreateCreature.verify rules e b = .error (.PositionError none e.position cause) := by
  simp [CreateCreature.verify, h1, h2, h3, h4]

/-- Success characterization of `ConvertCreature::verify`. -/
theorem convert_verify_ok_iff (rules : Rules) (e : ConvertCreature) (b : Battle) :
    ConvertCreature.verify rules e b = .ok () ↔
      ∃ c t, Entities.creature b.state.entities e.creature_id = some c ∧
        Entities.team b.state.entities e.team_id = some t ∧
        t.id ≠ c.team_id ∧
        rules.allow_new_entity b.state t (.CreatureConversion c) = .ok () := by
  unfold ConvertCreature.verify
  cases h1 : Entities.creature b.state.entities e.creature_id with
  | none => simp [h1]
  | some c =>
    cases h2 : Entities.team b.state.entities e.team_id with
    | none => simp [h1, h2]
    | some t =>
      by_cases h3 : t.id = c.team_id
      · simp [h1, h2, h3]
      · cases h4 : rules.allow_new_entity b.state t (.CreatureConversion c) with
        | error cause => simp [h1, h2, h3, h4]
        | ok u => cases u; simp [h1, h2, h3, h4]

/-- A missing creature is the first conversion failure. -/
theorem convert_verify_creature_none (rules : Rules) (e : ConvertCreature) (b : Battle)
    (h : Entities.creature b.state.entities e.creature_id = none) :
    ConvertCreature.verify rules e b = .error (.CreatureNotFound e.creature_id) := by
  simp [ConvertCreature.verify, h]

/-- A missing destination team is the second conversion failure. -/
theorem convert_verify_team_none (rules : Rules) (e : ConvertCreature) (b : Battle)
    (c : Creature)
    (h1 : Entities.creature b.state.entities e.creature_id = some c)
    (h2 : Entities.team b.state.entities e.team_id = none) :
    ConvertCreature.verify rules e b = .error (.TeamNotFound e.team_id) := by
  simp [ConvertCreature.verify, h1, h2]

/-- Converting to the current team is the third conversion failure. -/
theorem convert_verify_same_team (rules : Rules) (e : ConvertCreature) (b : Battle)
    (c : Creature) (t : Team)
    (h1 : Entities.creature b.state.entities e.creature_id = some c)
    (h2 : Entities.team b.state.entities e.team_id = some t)
    (h3 : t.id = c.team_id) :
    ConvertCreature.verify rules e b
      = .error (.InvalidCreatureConversion e.team_id e.creature_id) := by
  simp [ConvertCreature.verify, h1, h2, h3]

/-- A rejecting admission rule is the fourth conversion failure. -/
theorem convert_verify_unaccepted (rules : Rules) (e : ConvertCreature) (b : Battle)
    (c : Creature) (t : Team) (cause : RuleCause)
    (h1 : Entities.creature b.state.entities e.creature_id = some c)
    (h2 : Entities.team b.state.entities e.team_id = some t)
    (h3 : t.id ≠ c.team_id)
    (h4 : rules.allow_new_entity b.state t (.CreatureConversion c) = .error cause) :
    ConvertCreature.verify rules e b
      = .error (.ConvertedCreatureUnaccepted e.team_id e.creature_id cause) := by
  simp [ConvertCreature.verify, h1, h2, h3, h4]

/-- A submission whose verification fails returns the battle untouched. -/
theorem submit_of_verify_error (rules : Rules) (ev : CreatureEvent) (b : Battle)
    (err : WeaselError) (h : CreatureEvent.verify rules ev b = .error err) :
    submit rules ev b = { battle := b, queued := [], result := .error err } := by
  unfold submit
  rw [h]

/-- C2: in this embedding every verify function is a pure predicate over
the battle; consequently, for each of the three creature events, a
submission whose verification fails returns the battle state (registry,
spatial ledger, turn state) exactly as it was, with nothing enqueued and
the typed error reported. -/
theorem verify_failure_leaves_battle_unchanged (rules : Rules) (ev : CreatureEvent)
    (b : Battle) (err : WeaselError)
    (h : CreatureEvent.verify rules ev b = .error err) :
    submit rules ev b = { battle := b, queued := [], result := .error err } :=
  submit_of_verify_error rules ev b err h

/-- Witness for C2: a concrete failing removal leaves the battle as it
was. -/
theorem verify_failure_leaves_battle_unchanged_witness :
    submit rules0 (.removeC ⟨7⟩) battle0
      = { battle := battle0, queued := [], result := .error (.CreatureNotFound 7) } :=
  verify_failure_leaves_battle_unchanged rules0 (.removeC ⟨7⟩) battle0
    (.CreatureNotFound 7) rfl

/-- C3: CreateCreature verification succeeds exactly when the destination
team exists, its admission rule accepts the spawn, no creature holds the
proposed id, and the spatial ledger accepts the spawn claim; the checks
run in this order and the first failing one determines the typed error
(TeamNotFound, then NewCreatureUnaccepted wrapping the cause, then
DuplicatedCreature, then PositionError wrapping the cause). -/
theorem createCreature_verify_characterization (rules : Rules) (e : CreateCreature)
    (b : Battle) :
    (CreateCreature.verify rules e b = .ok () ↔
      ((∃ t, Entities.team b.state.entities e.team_id = some t ∧
          rules.allow_new_entity b.state t .CreatureSpawn = .ok ()) ∧
        Entities.creature b.state.entities e.id = none ∧
        rules.check_move b.state.space (.Spawn (EntityId.Creature e.id)) e.position
          = .ok ()))
  ∧ (Entities.team b.state.entities e.team_id = none →
      CreateCreature.verify rules e b = .error (.TeamNotFound e.team_id))
  ∧ (∀ t cause, Entities.team b.state.entities e.team_id = some t →
      rules.allow_new_entity b.state t .CreatureSpawn = .error cause →
      CreateCreature.verify rules e b = .error (.NewCreatureUnaccepted e.team_id cause))
  ∧ (∀ t c, Entities.team b.state.entities e.team_id = some t →
      rules.allow_new_entity b.state t .CreatureSpawn = .ok () →
      Entities.creature b.state.entities e.id = some c →
      CreateCreature.verify rules e b = .error (.DuplicatedCreature e.id))
  ∧ (∀ t cause, Entities.team b.state.entities e.team_id = some t →
      rules.allow_new_entity b.state t .CreatureSpawn = .ok () →
      Entities.creature b.state.entities e.id = none →
      rules.check_move b.state.space (.Spawn (EntityId.Creature e.id)) e.position
        = .error cause →
      CreateCreature.verify rules e b
        = .error (.PositionError none e.position cause)) := by
  refine ⟨create_verify_ok_iff rules e b, create_verify_team_none rules e b, ?_, ?_, ?_⟩
  · intro t cause h1 h2
    exact create_verify_unaccepted rules e b t cause h1 h2
  · intro t c h1 h2 h3
    exact create_verify_dup rules e b t c h1 h2 h3
  · intro t cause h1 h2 h3 h4
    exact create_verify_pos_err rules e b t cause h1 h2 h3 h4

/-- Witness for C3: on a concrete battle the spawn verification succeeds,
and aiming the same spawn at a missing team yields the team error. -/
theorem createCreature_verify_characterization_witness :
    CreateCreature.verify rules0 e0 battle0 = .ok ()
  ∧ CreateCreature.verify rules0 ⟨1, 9, 9, none, none⟩ battle0
      = .error (.TeamNotFound 9) := by
  constructor
  · exact (createCreature_verify_characterization rules0 e0 battle0).1.mpr
      ⟨⟨⟨0, [0]⟩, rfl, rfl⟩, rfl, rfl⟩
  · exact (createCreature_verify_characterization rules0 ⟨1, 9, 9, none, none⟩
      battle0).2.1 rfl

/-- C4 counterexample: battle0 holds the live creature 0, yet submitting a
CreateCreature with the duplicate id 0 aimed at the missing team 1 fails
with TeamNotFound, not with the duplication error — so the duplication
error is not reported regardless of the targeted team. -/
theorem createCreature_duplicate_team_error_first :
    Entities.creature battle0.state.entities 0 = some cr0
  ∧ CreateCreature.verify rules0 eDup battle0 = .error (.TeamNotFound 1)
  ∧ CreateCreature.verify rules0 eDup battle0 ≠ .error (.DuplicatedCreature 0) := by
  refine ⟨rfl, rfl, ?_⟩
  decide

/-- C4 amended: for every battle state with a live creature with id X,
submitting a CreateCreature event with id X always fails and leaves the
battle state unchanged; the error is the duplication error
(DuplicatedCreature) whenever the destination team exists and its
acceptance rule admits the spawn — if the team is missing or the rule
rejects, the earlier TeamNotFound or NewCreatureUnaccepted error is
reported instead. -/
theorem createCreature_duplicate_id_always_fails (rules : Rules) (e : CreateCreature)
    (b : Battle) (c : Creature)
    (hdup : Entities.creature b.state.entities e.id = some c) :
    (∃ err, CreateCreature.verify rules e b = .error err
      ∧ submit rules (.createC e) b
          = { battle := b, queued := [], result := .error err })
  ∧ (∀ t, Entities.team b.state.entities e.team_id = some t →
      rules.allow_new_entity b.state t .CreatureSpawn = .ok () →
      CreateCreature.verify rules e b = .error (.DuplicatedCreature e.id)) := by
  constructor
  · have hne : CreateCreature.verify rules e b ≠ .ok () := by
      intro hok
      have h2 := ((create_verify_ok_iff rules e b).1 hok).2.1
      rw [hdup] at h2
      cases h2
    cases hv : CreateCreature.verify rules e b with
    | ok u => cases u; exact absurd hv hne
    | error err =>
      exact ⟨err, rfl, submit_of_verify_error rules (.createC e) b err hv⟩
  · intro t h1 h2
    exact create_verify_dup rules e b t c h1 h2 hdup

/-- Witness for C4 amended: duplicating id 0 toward the existing,
accepting team 0 reports the duplication error. -/
theorem createCreature_duplicate_id_always_fails_witness :
    CreateCreature.verify rules0 ⟨0, 0, 9, none, none⟩ battle0
      = .error (.DuplicatedCreature 0) :=
  (createCreature_duplicate_id_always_fails rules0 ⟨0, 0, 9, none, none⟩ battle0
    cr0 rfl).2 ⟨0, [0]⟩ rfl rfl

/-- C5: ConvertCreature verification succeeds exactly when the source
creature exists, the destination team exists, the destination differs from
the current team and the admission rule accepts the conversion of this
creature; the checks run in this order, the first failing one determines
the typed error, and in particular converting a creature to its own team
fails with the invalid-transition error and changes no state. -/
theorem convertCreature_verify_characterization (rules : Rules) (e : ConvertCreature)
    (b : Battle) :
    (ConvertCreature.verify rules e b = .ok () ↔
      ∃ c t, Entities.creature b.state.entities e.creature_id = some c ∧
        Entities.team b.state.entities e.team_id = some t ∧
        t.id ≠ c.team_id ∧
        rules.allow_new_entity b.state t (.CreatureConversion c) = .ok ())
  ∧ (Entities.creature b.state.entities e.creature_id = none →
      ConvertCreature.verify rules e b = .error (.CreatureNotFound e.creature_id))
  ∧ (∀ c, Entities.creature b.state.entities e.creature_id = some c →
      Entities.team b.state.entities e.team_id = none →
      ConvertCreature.verify rules e b = .error (.TeamNotFound e.team_id))
  ∧ (∀ c t, Entities.creature b.state.entities e.creature_id = some c →
      Entities.team b.state.entities e.team_id = some t →
      t.id = c.team_id →
      ConvertCreature.verify rules e b
        = .error (.InvalidCreatureConversion e.team_id e.creature_id)
      ∧ submit rules (.convertC e) b
        = { battle := b, queued := [],
            result := .error (.InvalidCreatureConversion e.team_id e.creature_id) })
  ∧ (∀ c t cause, Entities.creature b.state.entities e.creature_id = some c →
      Entities.team b.state.entities e.team_id = some t →
      t.id ≠ c.team_id →
      rules.allow_new_entity b.state t (.CreatureConversion c) = .error cause →
      ConvertCreature.verify rules e b
        = .error (.ConvertedCreatureUnaccepted e.team_id e.creature_id cause)) := by
  refine ⟨convert_verify_ok_iff rules e b, convert_verify_creature_none rules e b,
    ?_, ?_, ?_⟩
  · intro c h1 h2
    exact convert_verify_team_none rules e b c h1 h2
  · intro c t h1 h2 h3
    have hv := convert_verify_same_team rules e b c t h1 h2 h3
    exact ⟨hv, submit_of_verify_error rules (.convertC e) b _ hv⟩
  · intro c t cause h1 h2 h3 h4
    exact convert_verify_unaccepted rules e b c t cause h1 h2 h3 h4

/-- Witness for C5: converting creature 0 to the team it already belongs
to fails with the invalid-transition error and changes no state. -/
theorem convertCreature_verify_characterization_witness :
    ConvertCreature.verify rules0 ⟨0, 0⟩ battle2
      = .error (.InvalidCreatureConversion 0 0)
  ∧ (submit rules0 (.convertC ⟨0, 0⟩) battle2).battle = battle2 := by
  have h := (convertCreature_verify_characterization rules0 ⟨0, 0⟩ battle2).2.2.2.1
    cr0 ⟨0, [0]⟩ rfl rfl rfl
  exact ⟨h.1, by rw [h.2]⟩

/-- C7: removal verification succeeds exactly when the creature exists,
fails with CreatureNotFound otherwise, and consults no rule predicate: its
result is the same under every rule configuration. -/
theorem removeCreature_verify_existence (rules : Rules) (e : RemoveCreature)
    (b : Battle) :
    (RemoveCreature.verify rules e b = .ok () ↔
      ∃ c, Entities.creature b.state.entities e.id = some c)
  ∧ (Entities.creature b.state.entities e.id = none →
      RemoveCreature.verify rules e b = .error (.CreatureNotFound e.id))
  ∧ (∀ rules2 : Rules,
      RemoveCreature.verify rules e b = RemoveCreature.verify rules2 e b) := by
  refine ⟨?_, ?_, fun _ => rfl⟩
  · unfold RemoveCreature.verify
    cases h : Entities.creature b.state.entities e.id with
    | none => simp [h]
    | some c => simp [h]
  · intro h
    simp [RemoveCreature.verify, h]

/-- Witness for C7: removing a missing creature reports CreatureNotFound. -/
theorem removeCreature_verify_existence_witness :
    RemoveCreature.verify rules0 ⟨7⟩ battle0 = .error (.CreatureNotFound 7) :=
  (removeCreature_verify_existence rules0 ⟨7⟩ battle0).2.1 rfl

/-- C1: when creation verification succeeds, apply performs exactly these
steps in this order: statistics generation with the statistics seed,
ability generation with the abilities seed, construction of the creature
(carrying the generated statistics and abilities and an empty status
collection), the spatial spawn-claim commit at the event position, the
turn-order notification of the new actor, the character-added hook (whose
enqueued events extend the queue), the registry insertion, and the
creation-counter increment. -/
theorem createCreature_apply_protocol (rules : Rules) (e : CreateCreature) (b : Battle)
    (queue : List QueuedEvent)
    (h : CreateCreature.verify rules e b = .ok ()) :
    (CreateCreature.apply rules e b queue).2.2 =
      [Step.GenStatistics e.statistics_seed, Step.GenAbilities e.abilities_seed,
       Step.ConstructCreature (newCreature rules e),
       Step.SpaceMove (.Spawn (EntityId.Creature e.id)) (some e.position),
       Step.RoundsActorAdded (EntityId.Creature e.id),
       Step.CharacterAddedHook (EntityId.Creature e.id),
       Step.RegistryAddCreature (EntityId.Creature e.id), Step.MetricCreaturesCreated]
  ∧ (newCreature rules e).statistics
      = collect_from_iter Statistic.id (rules.generate_statistics e.statistics_seed)
  ∧ (newCreature rules e).abilities
      = collect_from_iter Ability.id (rules.generate_abilities e.abilities_seed)
  ∧ (newCreature rules e).statuses = []
  ∧ (CreateCreature.apply rules e b queue).1.state.entities.creatures
      = b.state.entities.creatures ++ [newCreature rules e]
  ∧ (CreateCreature.apply rules e b queue).1.state.entities.teams
      = addMember b.state.entities.teams e.team_id e.id
  ∧ (CreateCreature.apply rules e b queue).1.state.space
      = Space.move_entity b.state.space (.Spawn (EntityId.Creature e.id)) (some e.position)
  ∧ (CreateCreature.apply rules e b queue).1.state.rounds
      = b.state.rounds.on_actor_added (EntityId.Creature e.id)
  ∧ (CreateCreature.apply rules e b queue).2.1
      = queue ++ rules.on_character_added
          { entities := b.state.entities,
            space := Space.move_entity b.state.space
              (.Spawn (EntityId.Creature e.id)) (some e.position),
            rounds := b.state.rounds.on_actor_added (EntityId.Creature e.id) }
          (newCreature rules e)
  ∧ (CreateCreature.apply rules e b queue).1.creaturesCreatedMetric
      = b.creaturesCreatedMetric + 1 := by
  obtain ⟨⟨t, ht, hallow⟩, hdupn, hmove⟩ := (create_verify_ok_iff rules e b).1 h
  have hadd := Entities.add_creature_ok b.state.entities (newCreature rules e)
    e.id t rfl hdupn ht
  have hteam : (newCreature rules e).team_id = e.team_id := rfl
  refine ⟨rfl, rfl, rfl, rfl, ?_, ?_, rfl, rfl, rfl, rfl⟩
  · simp [CreateCreature.apply, hadd]
  · simp [CreateCreature.apply, hadd, hteam]

/-- Witness for C1: the concrete creation performs the eight steps in
order and bumps the counter. -/
theorem createCreature_apply_protocol_witness :
    (CreateCreature.apply rules0 e0 battle0 []).2.2 =
      [Step.GenStatistics (some 4), Step.GenAbilities (some 6),
       Step.ConstructCreature (newCreature rules0 e0),
       Step.SpaceMove (.Spawn (EntityId.Creature 1)) (some 9),
       Step.RoundsActorAdded (EntityId.Creature 1),
       Step.CharacterAddedHook (EntityId.Creature 1),
       Step.RegistryAddCreature (EntityId.Creature 1), Step.MetricCreaturesCreated]
  ∧ (CreateCreature.apply rules0 e0 battle0 []).1.creaturesCreatedMetric = 4 :=
  ⟨(createCreature_apply_protocol rules0 e0 battle0 [] rfl).1,
   ((createCreature_apply_protocol rules0 e0 battle0 [] rfl).2.2.2.2.2.2.2.2.2).trans rfl⟩

/-- C6: when conversion verification succeeds, apply changes only team
membership: the converted creature keeps its position, statistics,
statuses and abilities (only its team field is rewritten), only the two
member sets of the involved teams change, the spatial ledger, turn state
and metric are untouched and no follow-up event is enqueued. -/
theorem convertCreature_apply_frame (rules : Rules) (e : ConvertCreature) (b : Battle)
    (queue : List QueuedEvent)
    (h : ConvertCreature.verify rules e b = .ok ()) :
    (ConvertCreature.apply rules e b queue).1.state.space = b.state.space
  ∧ (ConvertCreature.apply rules e b queue).1.state.rounds = b.state.rounds
  ∧ (ConvertCreature.apply rules e b queue).1.creaturesCreatedMetric
      = b.creaturesCreatedMetric
  ∧ (ConvertCreature.apply rules e b queue).2.1 = queue
  ∧ (ConvertCreature.apply rules e b queue).1.state.entities.creatures
      = b.state.entities.creatures.map (fun d =>
          if d.id = EntityId.Creature e.creature_id then { d with team_id := e.team_id }
          else d)
  ∧ (∀ c, Entities.creature b.state.entities e.creature_id = some c →
      Entities.creature (ConvertCreature.apply rules e b queue).1.state.entities
          e.creature_id = some { c with team_id := e.team_id }
      ∧ (ConvertCreature.apply rules e b queue).1.state.entities.teams
        = addMember (removeMember b.state.entities.teams c.team_id e.creature_id)
            e.team_id e.creature_id) := by
  obtain ⟨c, t, hc, ht, hne, hallow⟩ := (convert_verify_ok_iff rules e b).1 h
  have hconv := Entities.convert_creature_ok b.state.entities e.creature_id e.team_id
    c t hc ht
  have hcf : findCreature b.state.entities.creatures e.creature_id = some c := hc
  refine ⟨rfl, rfl, rfl, rfl, ?_, ?_⟩
  · simp [ConvertCreature.apply, hconv]
  · intro c2 hc2
    rw [hc] at hc2
    injection hc2 with hcc
    subst hcc
    constructor
    · simp [ConvertCreature.apply, hconv, Entities.creature, findCreature_map_convert, hcf]
    · simp [ConvertCreature.apply, hconv]

/-- Witness for C6: the concrete conversion moves the membership and
leaves the spatial ledger alone. -/
theorem convertCreature_apply_frame_witness :
    (ConvertCreature.apply rules0 ⟨0, 1⟩ battle2 []).1.state.entities.teams
      = addMember (removeMember battle2.state.entities.teams 0 0) 1 0
  ∧ (ConvertCreature.apply rules0 ⟨0, 1⟩ battle2 []).1.state.space = battle2.state.space :=
  ⟨((convertCreature_apply_frame rules0 ⟨0, 1⟩ battle2 [] rfl).2.2.2.2.2 cr0 rfl).2,
   (convertCreature_apply_frame rules0 ⟨0, 1⟩ battle2 [] rfl).1⟩

/-- C8: when removal verification succeeds, apply performs, in order: only
if the turn is Started with this creature among the acting entities, the
round-rule on-end hook, the objectives re-evaluation at the turn-end
checkpoint (enqueuing its events) and the reset of the turn state to
Ready (otherwise the turn state is untouched); then the registry removal,
the character-transmuted hook tagged as a removal, the turn-order removal
notification, and finally the release of the spatial claim, leaving the
creature without any position. -/
theorem removeCreature_apply_protocol (rules : Rules) (e : RemoveCreature) (b : Battle)
    (queue : List QueuedEvent) (c : Creature)
    (hc : Entities.creature b.state.entities e.id = some c) :
    (RemoveCreature.apply rules e b queue).2.2 =
      (if isActingParticipant b.state.rounds c.id then
        [Step.RoundsOnEnd c.id, Step.CheckObjectivesTurnEnd,
         Step.SetTurnState TurnState.Ready]
       else []) ++
      [Step.RegistryRemoveCreature c.id, Step.CharacterTransmutedHook c.id,
       Step.RoundsActorRemoved c.id, Step.SpaceMove (.Movement c.id) none]
  ∧ (RemoveCreature.apply rules e b queue).1.state.rounds.state =
      (if isActingParticipant b.state.rounds c.id then TurnState.Ready
       else b.state.rounds.state)
  ∧ (RemoveCreature.apply rules e b queue).1.state.rounds.order
      = eraseEntity b.state.rounds.order c.id
  ∧ (RemoveCreature.apply rules e b queue).1.state.entities.creatures
      = removeCreatureList b.state.entities.creatures e.id
  ∧ Entities.creature (RemoveCreature.apply rules e b queue).1.state.entities e.id = none
  ∧ (RemoveCreature.apply rules e b queue).1.state.entities.teams
      = removeMember b.state.entities.teams c.team_id e.id
  ∧ (RemoveCreature.apply rules e b queue).1.state.space
      = spaceRelease b.state.space c.id
  ∧ (RemoveCreature.apply rules e b queue).2.1 =
      (if isActingParticipant b.state.rounds c.id then
        queue ++ rules.check_objectives b.state
       else queue)
      ++ rules.on_character_transmuted
          { entities := { creatures := removeCreatureList b.state.entities.creatures e.id,
                          teams := removeMember b.state.entities.teams c.team_id e.id },
            space := b.state.space,
            rounds := (if isActingParticipant b.state.rounds c.id then
                b.state.rounds.set_state TurnState.Ready
              else b.state.rounds) } c
  ∧ (RemoveCreature.apply rules e b queue).1.creaturesCreatedMetric
      = b.creaturesCreatedMetric := by
  have hrem := Entities.remove_creature_ok b.state.entities e.id c hc
  have hcf : findCreature b.state.entities.creatures e.id = some c := hc
  by_cases hact : isActingParticipant b.state.rounds c.id <;>
    refine ⟨?_, ?_, ?_, ?_, ?_, ?_, ?_, ?_, ?_⟩ <;>
      simp [RemoveCreature.apply, hcf, hrem, hact, Rounds.on_actor_removed,
        Rounds.set_state, Space.move_entity, PositionClaim.entity, Entities.creature,
        findCreature_removeCreatureList]

/-- Witness for C8: removing the mid-turn acting creature resets the turn
state and performs the seven steps in order. -/
theorem removeCreature_apply_protocol_witness :
    (RemoveCreature.apply rules0 ⟨0⟩ battleMid []).1.state.rounds.state = TurnState.Ready
  ∧ (RemoveCreature.apply rules0 ⟨0⟩ battleMid []).2.2 =
      [Step.RoundsOnEnd (EntityId.Creature 0), Step.CheckObjectivesTurnEnd,
       Step.SetTurnState TurnState.Ready,
       Step.RegistryRemoveCreature (EntityId.Creature 0),
       Step.CharacterTransmutedHook (EntityId.Creature 0),
       Step.RoundsActorRemoved (EntityId.Creature 0),
       Step.SpaceMove (.Movement (EntityId.Creature 0)) none] := by
  have h := removeCreature_apply_protocol rules0 ⟨0⟩ battleMid [] cr0 rfl
  exact ⟨h.2.1.trans (by decide), h.1.trans (by decide)⟩

/-- C9: a sequence of additions with pairwise-distinct ids to a creature
whose collection holds none of those ids appends the items in insertion
order after the existing values; in particular, starting from an empty
collection, the iterator yields exactly the added items in insertion
order — for each of the statistics, statuses and abilities collections,
iteration order is determined by the insertion history alone. -/
theorem creature_collections_insertion_order (c : Creature)
    (stats : List Statistic) (stas : List AppliedStatus) (abls : List Ability) :
    (stats.Pairwise (fun x y => x.id ≠ y.id) →
      (∀ s ∈ stats, IndexMap.get c.statistics s.id = none) →
      (addStatisticsSeq c stats).statisticsValues = c.statisticsValues ++ stats)
  ∧ (c.statistics = [] → stats.Pairwise (fun x y => x.id ≠ y.id) →
      (addStatisticsSeq c stats).statisticsValues = stats)
  ∧ (stas.Pairwise (fun x y => x.id ≠ y.id) →
      (∀ s ∈ stas, IndexMap.get c.statuses s.id = none) →
      (addStatusesSeq c stas).statusesValues = c.statusesValues ++ stas)
  ∧ (c.statuses = [] → stas.Pairwise (fun x y => x.id ≠ y.id) →
      (addStatusesSeq c stas).statusesValues = stas)
  ∧ (abls.Pairwise (fun x y => x.id ≠ y.id) →
      (∀ s ∈ abls, IndexMap.get c.abilities s.id = none) →
      (addAbilitiesSeq c abls).abilitiesValues = c.abilitiesValues ++ abls)
  ∧ (c.abilities = [] → abls.Pairwise (fun x y => x.id ≠ y.id) →
      (addAbilitiesSeq c abls).abilitiesValues = abls) := by
  refine ⟨?_, ?_, ?_, ?_, ?_, ?_⟩
  · intro hp hf
    show IndexMap.values (addStatisticsSeq c stats).statistics
      = IndexMap.values c.statistics ++ stats
    rw [addStatisticsSeq_statistics stats c,
      IndexMap.foldl_insert_fresh Statistic.id stats c.statistics hf hp,
      IndexMap.values_append, IndexMap.values_map_pair]
  · intro hemp hp
    show IndexMap.values (addStatisticsSeq c stats).statistics = stats
    rw [addStatisticsSeq_statistics stats c, hemp,
      IndexMap.foldl_insert_fresh Statistic.id stats [] (fun s _ => rfl) hp]
    exact IndexMap.values_map_pair Statistic.id stats
  · intro hp hf
    show IndexMap.values (addStatusesSeq c stas).statuses
      = IndexMap.values c.statuses ++ stas
    rw [addStatusesSeq_statuses stas c,
      IndexMap.foldl_insert_fresh AppliedStatus.id stas c.statuses hf hp,
      IndexMap.values_append, IndexMap.values_map_pair]
  · intro hemp hp
    show IndexMap.values (addStatusesSeq c stas).statuses = stas
    rw [addStatusesSeq_statuses stas c, hemp,
      IndexMap.foldl_insert_fresh AppliedStatus.id stas [] (fun s _ => rfl) hp]
    exact IndexMap.values_map_pair AppliedStatus.id stas
  · intro hp hf
    show IndexMap.values (addAbilitiesSeq c abls).abilities
      = IndexMap.values c.abilities ++ abls
    rw [addAbilitiesSeq_abilities abls c,
      IndexMap.foldl_insert_fresh Ability.id abls c.abilities hf hp,
      IndexMap.values_append, IndexMap.values_map_pair]
  · intro hemp hp
    show IndexMap.values (addAbilitiesSeq c abls).abilities = abls
    rw [addAbilitiesSeq_abilities abls c, hemp,
      IndexMap.foldl_insert_fresh Ability.id abls [] (fun s _ => rfl) hp]
    exact IndexMap.values_map_pair Ability.id abls

/-- Witness for C9: three statistics added to a fresh creature come back
in insertion order. -/
theorem creature_collections_insertion_order_witness :
    (addStatisticsSeq cr0 [⟨1, 10⟩, ⟨2, 20⟩, ⟨3, 30⟩]).statisticsValues
      = [⟨1, 10⟩, ⟨2, 20⟩, ⟨3, 30⟩] :=
  (creature_collections_insertion_order cr0 [⟨1, 10⟩, ⟨2, 20⟩, ⟨3, 30⟩] [] []).2.1
    rfl (by decide)

/-- C10: each add keys the item by its own id: the call returns the
previously stored item with that id (`none` when absent, `some` of the
replaced item otherwise), the subsequent lookup of that id yields the
newly added item, lookups of other ids are unaffected, insertion of a
fresh id appends the entry, and lookups of absent ids yield `none` rather
than an error — for statistics, statuses and abilities alike. -/
theorem creature_add_lookup_semantics (c : Creature) (s : Statistic)
    (u : AppliedStatus) (a : Ability) (j : Nat) :
    ((c.add_statistic s).1 = c.statistic s.id)
  ∧ ((c.add_statistic s).2.statistic s.id = some s)
  ∧ (j ≠ s.id → (c.add_statistic s).2.statistic j = c.statistic j)
  ∧ (c.statistic s.id = none →
      (c.add_statistic s).2.statistics = c.statistics ++ [(s.id, s)])
  ∧ (c.statistic j = none ↔ ∀ p ∈ c.statistics, p.1 ≠ j)
  ∧ ((c.add_status u).1 = c.status u.id)
  ∧ ((c.add_status u).2.status u.id = some u)
  ∧ (j ≠ u.id → (c.add_status u).2.status j = c.status j)
  ∧ (c.status u.id = none → (c.add_status u).2.statuses = c.statuses ++ [(u.id, u)])
  ∧ (c.status j = none ↔ ∀ p ∈ c.statuses, p.1 ≠ j)
  ∧ ((c.add_ability a).1 = c.ability a.id)
  ∧ ((c.add_ability a).2.ability a.id = some a)
  ∧ (j ≠ a.id → (c.add_ability a).2.ability j = c.ability j)
  ∧ (c.ability a.id = none → (c.add_ability a).2.abilities = c.abilities ++ [(a.id, a)])
  ∧ (c.ability j = none ↔ ∀ p ∈ c.abilities, p.1 ≠ j) := by
  refine ⟨IndexMap.get_insertRet_fst c.statistics s.id s,
    IndexMap.get_insert_self c.statistics s.id s, ?_, ?_,
    IndexMap.get_eq_none_iff c.statistics j,
    IndexMap.get_insertRet_fst c.statuses u.id u,
    IndexMap.get_insert_self c.statuses u.id u, ?_, ?_,
    IndexMap.get_eq_none_iff c.statuses j,
    IndexMap.get_insertRet_fst c.abilities a.id a,
    IndexMap.get_insert_self c.abilities a.id a, ?_, ?_,
    IndexMap.get_eq_none_iff c.abilities j⟩
  · intro hj
    exact IndexMap.get_insert_ne c.statistics s.id j s hj
  · intro hn
    exact IndexMap.insert_fresh c.statistics s.id s hn
  · intro hj
    exact IndexMap.get_insert_ne c.statuses u.id j u hj
  · intro hn
    exact IndexMap.insert_fresh c.statuses u.id u hn
  · intro hj
    exact IndexMap.get_insert_ne c.abilities a.id j a hj
  · intro hn
    exact IndexMap.insert_fresh c.abilities a.id a hn

/-- Witness for C10: adding statistic 1 to a fresh creature does not
disturb the lookup of id 2, and the lookup of id 1 yields the new item. -/
theorem creature_add_lookup_semantics_witness :
    (cr0.add_statistic ⟨1, 10⟩).2.statistic 2 = cr0.statistic 2
  ∧ (cr0.add_statistic ⟨1, 10⟩).2.statistic 1 = some ⟨1, 10⟩ :=
  ⟨(creature_add_lookup_semantics cr0 ⟨1, 10⟩ ⟨1, 5⟩ ⟨1, 4⟩ 2).2.2.1 (by decide),
   (creature_add_lookup_semantics cr0 ⟨1, 10⟩ ⟨1, 5⟩ ⟨1, 4⟩ 2).2.1⟩

end Weasel
